import Mathlib

/-!
Shallow embedding of `jules-scratch/verification/verify_discriminated_unions.py`.

The script drives a headless browser: it launches a browser, opens a page,
navigates to a fixed URL, then alternates option selections on `<select>`
controls with screenshots, and finally closes the browser.  The outer
`with sync_playwright() as playwright:` block acquires the driver as a scoped
resource and releases it on every exit path, including exceptional ones.

The embedding models the script as a fixed list of actions (`script`,
transcribed action-for-action from the source) interpreted sequentially
against an abstract environment `Env` describing the external collaborators
(server reachability, how many DOM elements each CSS selector matches, which
option values each resolved control offers, whether a screenshot write
succeeds).  A failing action aborts the remaining sequence, mirroring an
uncaught Python exception.
-/

namespace VDU

/-- Locator disambiguation used by the script: Playwright's `.first`, `.last`,
or no disambiguator at all (strict mode: the locator must match exactly one
element or the action fails). -/
inductive Disamb
  | first
  | last
  | unique
deriving DecidableEq

/-- A locator: a CSS selector string plus the disambiguation applied to it. -/
structure Selector where
  css : String
  disamb : Disamb
deriving DecidableEq

/-- One browser action issued by the script.  `screenshot` carries the
`full_page` flag of Playwright's `Page.screenshot`; the source never passes
`full_page=True`, and the library default is `false` (viewport only). -/
inductive Action
  | launch
  | newPage
  | goto (url : String)
  | screenshot (path : String) (fullPage : Bool)
  | selectOption (sel : Selector) (value : String)
  | closeBrowser
deriving DecidableEq

/-- The fixed URL the script navigates to. -/
def url0 : String := "http://localhost:3004/"

/-- Screenshot path of step 1. -/
def shotPath1 : String := "jules-scratch/verification/01_initial.png"

/-- Screenshot path of step 2. -/
def shotPath2 : String := "jules-scratch/verification/02_auto_form_dog.png"

/-- Screenshot path of step 3. -/
def shotPath3 : String := "jules-scratch/verification/03_field_example_b.png"

/-- Screenshot path of step 4. -/
def shotPath4 : String := "jules-scratch/verification/04_select_example_member.png"

/-- CSS selector of the first selection step. -/
def css1 : String := "select[name=\"type\"]"

/-- CSS selector of the second selection step. -/
def css2 : String := "select[aria-label=\"kind\"]"

/-- CSS selector of the third selection step. -/
def css3 : String := "select[aria-label=\"type\"]"

/-- `page.locator('select[name="type"]').first` -/
def sel1 : Selector := ⟨css1, Disamb.first⟩

/-- `page.locator('select[aria-label="kind"]')` with no disambiguator. -/
def sel2 : Selector := ⟨css2, Disamb.unique⟩

/-- `page.locator('select[aria-label="type"]').last` -/
def sel3 : Selector := ⟨css3, Disamb.last⟩

/-- The body of `run`, transcribed action-for-action from the source.  Each
`page.screenshot(path=...)` call omits `full_page`, so the flag is the
library default `false`. -/
def script : List Action :=
  [Action.launch,
   Action.newPage,
   Action.goto url0,
   Action.screenshot shotPath1 false,
   Action.selectOption sel1 "dog",
   Action.screenshot shotPath2 false,
   Action.selectOption sel2 "b",
   Action.screenshot shotPath3 false,
   Action.selectOption sel3 "member",
   Action.screenshot shotPath4 false,
   Action.closeBrowser]

/-- The external world the script runs against: whether navigation to a URL
succeeds, how many DOM elements a CSS selector matches, which option values
the control resolved by a locator offers, and whether writing a screenshot
file succeeds.  The script itself reads no input; everything varying lives
here. -/
structure Env where
  gotoOk : String → Bool
  matchCount : String → Nat
  options : String → Disamb → List String
  screenshotOk : String → Bool

/-- Whether locator resolution succeeds: `.first` and `.last` need at least
one match; an undisambiguated locator is strict and needs exactly one. -/
def resolveOk (env : Env) (sel : Selector) : Bool :=
  match sel.disamb with
  | Disamb.unique => env.matchCount sel.css == 1
  | _ => env.matchCount sel.css != 0

/-- Whether an action succeeds in the given environment.  `launch`,
`new_page` and `close` always succeed; `goto`, `select_option` and
`screenshot` can fail as the corresponding Playwright calls can. -/
def stepGuard (env : Env) : Action → Bool
  | Action.goto url => env.gotoOk url
  | Action.screenshot path _ => env.screenshotOk path
  | Action.selectOption sel v =>
      resolveOk env sel && (env.options sel.css sel.disamb).contains v
  | _ => true

/-- Interpreter state: the actions completed so far, the screenshot files
written so far (path, `full_page` flag, and the page's selection state at
capture time), the current selections, and whether the browser is open. -/
structure RunState where
  trace : List Action
  written : List (String × Bool × List (Selector × String))
  selections : List (Selector × String)
  browserOpen : Bool
deriving DecidableEq

/-- Record a selection on a control, overriding any earlier selection on the
same control and leaving selections on other controls in effect. -/
def updateSel : List (Selector × String) → Selector → String → List (Selector × String)
  | [], sel, v => [(sel, v)]
  | (s0, v0) :: rest, sel, v =>
      if s0 = sel then (sel, v) :: rest else (s0, v0) :: updateSel rest sel v

/-- The state change of a successful action. -/
def applyEffect (s : RunState) : Action → RunState
  | Action.launch =>
      { s with browserOpen := true, trace := s.trace ++ [Action.launch] }
  | Action.newPage =>
      { s with trace := s.trace ++ [Action.newPage] }
  | Action.goto url =>
      { s with trace := s.trace ++ [Action.goto url] }
  | Action.screenshot path fp =>
      { s with written := s.written ++ [(path, fp, s.selections)],
               trace := s.trace ++ [Action.screenshot path fp] }
  | Action.selectOption sel v =>
      { s with selections := updateSel s.selections sel v,
               trace := s.trace ++ [Action.selectOption sel v] }
  | Action.closeBrowser =>
      { s with browserOpen := false, trace := s.trace ++ [Action.closeBrowser] }

/-- Run one action: `none` models an uncaught exception. -/
def applyAction (env : Env) (s : RunState) (a : Action) : Option RunState :=
  cond (stepGuard env a) (some (applyEffect s a)) none

/-- Sequential interpretation: a failing action aborts the remaining
sequence and reports failure; the state at the failure is returned. -/
def runFrom (env : Env) : List Action → RunState → RunState × Bool
  | [], s => (s, true)
  | a :: rest, s =>
      match applyAction env s a with
      | some s2 => runFrom env rest s2
      | none => (s, false)

/-- The empty starting state. -/
def initState : RunState := ⟨[], [], [], false⟩

/-- Execute the whole script. -/
def runScript (env : Env) : RunState × Bool :=
  runFrom env script initState

/-- Process exit status: 0 on full success, 1 when an error propagated out. -/
def exitCode (env : Env) : Nat :=
  if (runScript env).2 = true then 0 else 1

/-- All guards of the script hold: every action the script attempts succeeds
in this environment. -/
abbrev EnvOk (env : Env) : Prop :=
  ∀ a ∈ script, stepGuard env a = true

/-- Result of the whole process: the inner run plus whether the outer
`with sync_playwright()` scope released the driver. -/
structure MainResult where
  run : RunState
  ok : Bool
  driverReleased : Bool

/-- The top level of the program: `with sync_playwright() as playwright:
run(playwright)`.  The context manager's exit runs on both the normal and
the exceptional path, so the driver is released either way; the inner result
(including any failure) is otherwise passed through. -/
def mainRun (env : Env) : MainResult :=
  { run := (runScript env).1, ok := (runScript env).2, driverReleased := true }

/-- The selection state after all three selections. -/
def finalSelections : List (Selector × String) :=
  [(sel1, "dog"), (sel2, "b"), (sel3, "member")]

/-- The screenshot files a fully successful run writes, with the page
selection state captured by each. -/
def finalWritten : List (String × Bool × List (Selector × String)) :=
  [(shotPath1, false, []),
   (shotPath2, false, [(sel1, "dog")]),
   (shotPath3, false, [(sel1, "dog"), (sel2, "b")]),
   (shotPath4, false, finalSelections)]

/-- Whether an action is a screenshot capture. -/
def isShot : Action → Bool
  | Action.screenshot _ _ => true
  | _ => false

/-- The screenshot calls of the script: target path and `full_page` flag. -/
def screenshotSpecs : List (String × Bool) :=
  script.filterMap (fun a =>
    match a with
    | Action.screenshot p fp => some (p, fp)
    | _ => none)

/-- A filesystem: maps a path to the stored screenshot content (the
`full_page` flag and the selection state the capture recorded). -/
def Fs : Type := String → Option (Bool × List (Selector × String))

/-- Store one file, overwriting whatever the path held. -/
def writeFile (fs : Fs) (p : String) (v : Bool × List (Selector × String)) : Fs :=
  fun q => if q = p then some v else fs q

/-- Apply a run's screenshot writes to a filesystem, in order. -/
def commit (fs : Fs) : List (String × Bool × List (Selector × String)) → Fs
  | [] => fs
  | (p, fp, snap) :: rest => commit (writeFile fs p (fp, snap)) rest

/-- The filesystem after one invocation of the script. -/
def fsAfter (env : Env) (fs : Fs) : Fs :=
  commit fs (runScript env).1.written

/-- A filesystem with no files. -/
def emptyFs : Fs := fun _ => none

/-- An environment in which every action of the script succeeds. -/
def goodEnv : Env :=
  { gotoOk := fun _ => true,
    matchCount := fun css => if css = css2 then 1 else 2,
    options := fun css _ =>
      if css = css1 then ["cat", "dog"]
      else if css = css2 then ["a", "b"]
      else ["guest", "member"],
    screenshotOk := fun _ => true }

/-- A second fully successful environment, differing from `goodEnv` in match
counts and option lists. -/
def goodEnv2 : Env :=
  { gotoOk := fun _ => true,
    matchCount := fun css => if css = css2 then 1 else 5,
    options := fun css _ =>
      if css = css1 then ["dog", "cat", "fish"]
      else if css = css2 then ["a", "b", "c"]
      else ["guest", "member", "admin"],
    screenshotOk := fun _ => true }

/-- An environment where the server is unreachable: navigation fails. -/
def badNavEnv : Env :=
  { goodEnv with gotoOk := fun _ => false }

/-- Like `goodEnv`, but the first control offers no option `"dog"`. -/
def envNoDog : Env :=
  { goodEnv with options := fun css _ =>
      if css = css1 then ["cat"]
      else if css = css2 then ["a", "b"]
      else ["guest", "member"] }

/-- Like `goodEnv`, but the kind control offers no option `"b"`. -/
def envNoB : Env :=
  { goodEnv with options := fun css _ =>
      if css = css1 then ["cat", "dog"]
      else if css = css2 then ["a"]
      else ["guest", "member"] }

/-- Like `goodEnv`, but the last type control offers no option `"member"`. -/
def envNoMember : Env :=
  { goodEnv with options := fun css _ =>
      if css = css1 then ["cat", "dog"]
      else if css = css2 then ["a", "b"]
      else ["guest"] }

/-- Like `goodEnv`, but every selector matches three elements, so the
undisambiguated kind locator is ambiguous. -/
def envMultiKind : Env :=
  { goodEnv with matchCount := fun _ => 3 }

/-- In an environment where every guard of the script holds, the run
completes: every action executes in order, all four screenshots are written
with their cumulative selection snapshots, and the browser ends closed. -/
lemma runScript_envOk (env : Env) (h : EnvOk env) :
    runScript env = (⟨script, finalWritten, finalSelections, false⟩, true) := by
  have h1 : stepGuard env (Action.goto url0) = true := h _ (by decide)
  have h2 : stepGuard env (Action.screenshot shotPath1 false) = true := h _ (by decide)
  have h3 : stepGuard env (Action.selectOption sel1 "dog") = true := h _ (by decide)
  have h4 : stepGuard env (Action.screenshot shotPath2 false) = true := h _ (by decide)
  have h5 : stepGuard env (Action.selectOption sel2 "b") = true := h _ (by decide)
  have h6 : stepGuard env (Action.screenshot shotPath3 false) = true := h _ (by decide)
  have h7 : stepGuard env (Action.selectOption sel3 "member") = true := h _ (by decide)
  have h8 : stepGuard env (Action.screenshot shotPath4 false) = true := h _ (by decide)
  have hl : stepGuard env Action.launch = true := rfl
  have hn : stepGuard env Action.newPage = true := rfl
  have hc : stepGuard env Action.closeBrowser = true := rfl
  simp only [runScript, script, runFrom, applyAction, h1, h2, h3, h4, h5, h6, h7, h8,
    hl, hn, hc, cond_true]
  rfl

/-- Whatever action fails, the run aborts there: the browser is left open
(the close action never ran), the completed actions are a proper prefix of
the script, and the files written are exactly those of the screenshot
actions completed before the failure. -/
lemma runScript_fail (env : Env) (hfail : (runScript env).2 = false) :
    (runScript env).1.browserOpen = true ∧
    Action.closeBrowser ∉ (runScript env).1.trace ∧
    (∃ k, k < script.length ∧ (runScript env).1.trace = script.take k) ∧
    (runScript env).1.written.map (fun w => Action.screenshot w.1 w.2.1)
      = (runScript env).1.trace.filter isShot := by
  have hl : stepGuard env Action.launch = true := rfl
  have hn : stepGuard env Action.newPage = true := rfl
  have hc : stepGuard env Action.closeBrowser = true := rfl
  cases hg1 : stepGuard env (Action.goto url0) with
  | false =>
    have hr : runScript env = (⟨[Action.launch, Action.newPage], [], [], true⟩, false) := by
      simp only [runScript, script, runFrom, applyAction, hl, hn, hg1, cond_true, cond_false,
        applyEffect, updateSel]
      rfl
    rw [hr]
    exact ⟨rfl, by decide, ⟨2, by decide, by decide⟩, rfl⟩
  | true =>
  cases hg2 : stepGuard env (Action.screenshot shotPath1 false) with
  | false =>
    have hr : runScript env =
        (⟨[Action.launch, Action.newPage, Action.goto url0], [], [], true⟩, false) := by
      simp only [runScript, script, runFrom, applyAction, hl, hn, hg1, hg2, cond_true,
        cond_false, applyEffect, updateSel]
      rfl
    rw [hr]
    exact ⟨rfl, by decide, ⟨3, by decide, by decide⟩, rfl⟩
  | true =>
  cases hg3 : stepGuard env (Action.selectOption sel1 "dog") with
  | false =>
    have hr : runScript env =
        (⟨[Action.launch, Action.newPage, Action.goto url0,
           Action.screenshot shotPath1 false],
          [(shotPath1, false, [])], [], true⟩, false) := by
      simp only [runScript, script, runFrom, applyAction, hl, hn, hg1, hg2, hg3, cond_true,
        cond_false, applyEffect, updateSel]
      rfl
    rw [hr]
    exact ⟨rfl, by decide, ⟨4, by decide, by decide⟩, rfl⟩
  | true =>
  cases hg4 : stepGuard env (Action.screenshot shotPath2 false) with
  | false =>
    have hr : runScript env =
        (⟨[Action.launch, Action.newPage, Action.goto url0,
           Action.screenshot shotPath1 false, Action.selectOption sel1 "dog"],
          [(shotPath1, false, [])], [(sel1, "dog")], true⟩, false) := by
      simp only [runScript, script, runFrom, applyAction, hl, hn, hg1, hg2, hg3, hg4,
        cond_true, cond_false, applyEffect, updateSel]
      rfl
    rw [hr]
    exact ⟨rfl, by decide, ⟨5, by decide, by decide⟩, rfl⟩
  | true =>
  cases hg5 : stepGuard env (Action.selectOption sel2 "b") with
  | false =>
    have hr : runScript env =
        (⟨[Action.launch, Action.newPage, Action.goto url0,
           Action.screenshot shotPath1 false, Action.selectOption sel1 "dog",
           Action.screenshot shotPath2 false],
          [(shotPath1, false, []), (shotPath2, false, [(sel1, "dog")])],
          [(sel1, "dog")], true⟩, false) := by
      simp only [runScript, script, runFrom, applyAction, hl, hn, hg1, hg2, hg3, hg4, hg5,
        cond_true, cond_false, applyEffect, updateSel]
      rfl
    rw [hr]
    exact ⟨rfl, by decide, ⟨6, by decide, by decide⟩, rfl⟩
  | true =>
  cases hg6 : stepGuard env (Action.screenshot shotPath3 false) with
  | false =>
    have hr : runScript env =
        (⟨[Action.launch, Action.newPage, Action.goto url0,
           Action.screenshot shotPath1 false, Action.selectOption sel1 "dog",
           Action.screenshot shotPath2 false, Action.selectOption sel2 "b"],
          [(shotPath1, false, []), (shotPath2, false, [(sel1, "dog")])],
          [(sel1, "dog"), (sel2, "b")], true⟩, false) := by
      simp only [runScript, script, runFrom, applyAction, hl, hn, hg1, hg2, hg3, hg4, hg5,
        hg6, cond_true, cond_false, applyEffect, updateSel]
      rfl
    rw [hr]
    exact ⟨rfl, by decide, ⟨7, by decide, by decide⟩, rfl⟩
  | true =>
  cases hg7 : stepGuard env (Action.selectOption sel3 "member") with
  | false =>
    have hr : runScript env =
        (⟨[Action.launch, Action.newPage, Action.goto url0,
           Action.screenshot shotPath1 false, Action.selectOption sel1 "dog",
           Action.screenshot shotPath2 false, Action.selectOption sel2 "b",
           Action.screenshot shotPath3 false],
          [(shotPath1, false, []), (shotPath2, false, [(sel1, "dog")]),
           (shotPath3, false, [(sel1, "dog"), (sel2, "b")])],
          [(sel1, "dog"), (sel2, "b")], true⟩, false) := by
      simp only [runScript, script, runFrom, applyAction, hl, hn, hg1, hg2, hg3, hg4, hg5,
        hg6, hg7, cond_true, cond_false, applyEffect, updateSel]
      rfl
    rw [hr]
    exact ⟨rfl, by decide, ⟨8, by decide, by decide⟩, rfl⟩
  | true =>
  cases hg8 : stepGuard env (Action.screenshot shotPath4 false) with
  | false =>
    have hr : runScript env =
        (⟨[Action.launch, Action.newPage, Action.goto url0,
           Action.screenshot shotPath1 false, Action.selectOption sel1 "dog",
           Action.screenshot shotPath2 false, Action.selectOption sel2 "b",
           Action.screenshot shotPath3 false, Action.selectOption sel3 "member"],
          [(shotPath1, false, []), (shotPath2, false, [(sel1, "dog")]),
           (shotPath3, false, [(sel1, "dog"), (sel2, "b")])],
          [(sel1, "dog"), (sel2, "b"), (sel3, "member")], true⟩, false) := by
      simp only [runScript, script, runFrom, applyAction, hl, hn, hg1, hg2, hg3, hg4, hg5,
        hg6, hg7, hg8, cond_true, cond_false, applyEffect, updateSel]
      rfl
    rw [hr]
    exact ⟨rfl, by decide, ⟨9, by decide, by decide⟩, rfl⟩
  | true =>
    have henv : EnvOk env := by
      intro a ha
      simp only [script, List.mem_cons, List.not_mem_nil, or_false] at ha
      rcases ha with rfl | rfl | rfl | rfl | rfl | rfl | rfl | rfl | rfl | rfl | rfl <;>
        first | rfl | assumption
    rw [runScript_envOk env henv] at hfail
    exact absurd hfail (by decide)

/-- Claim C1: in an environment where every scripted action succeeds, the run
performs exactly the script's sequence — launch; new page; navigate to
`http://localhost:3004/`; screenshot `01_initial.png`; select `"dog"` on the
first control matching `select[name="type"]`; screenshot
`02_auto_form_dog.png`; select `"b"` on the control
`select[aria-label="kind"]`; screenshot `03_field_example_b.png`; select
`"member"` on the last control matching `select[aria-label="type"]`;
screenshot `04_select_example_member.png`; close the browser — in this order
and nothing else, and the process exits with status 0. -/
theorem c1_successful_run_sequence (env : Env) (h : EnvOk env) :
    (runScript env).1.trace = script ∧
    (runScript env).1.browserOpen = false ∧
    exitCode env = 0 := by
  simp [exitCode, runScript_envOk env h]

/-- Witness for C1 at a concrete fully successful environment. -/
theorem c1_successful_run_sequence_witness :
    (runScript goodEnv).1.trace = script ∧
    (runScript goodEnv).1.browserOpen = false ∧
    exitCode goodEnv = 0 :=
  c1_successful_run_sequence goodEnv (by decide)

/-- Claim C2: if the option value requested at a selection step does not
exist on that step's control (and every earlier action succeeds), the run
stops at that step: the screenshots of all earlier steps have been written
and no screenshot of that step or any later step is produced.  The three
conjuncts cover the three steps that request an option value; the first
screenshot step requests none. -/
theorem c2_missing_option_stops_at_step (env : Env) :
    (stepGuard env (Action.goto url0) = true →
     stepGuard env (Action.screenshot shotPath1 false) = true →
     (env.options css1 Disamb.first).contains "dog" = false →
     (runScript env).2 = false ∧
       (runScript env).1.written = [(shotPath1, false, [])]) ∧
    (stepGuard env (Action.goto url0) = true →
     stepGuard env (Action.screenshot shotPath1 false) = true →
     stepGuard env (Action.selectOption sel1 "dog") = true →
     stepGuard env (Action.screenshot shotPath2 false) = true →
     (env.options css2 Disamb.unique).contains "b" = false →
     (runScript env).2 = false ∧
       (runScript env).1.written =
         [(shotPath1, false, []), (shotPath2, false, [(sel1, "dog")])]) ∧
    (stepGuard env (Action.goto url0) = true →
     stepGuard env (Action.screenshot shotPath1 false) = true →
     stepGuard env (Action.selectOption sel1 "dog") = true →
     stepGuard env (Action.screenshot shotPath2 false) = true →
     stepGuard env (Action.selectOption sel2 "b") = true →
     stepGuard env (Action.screenshot shotPath3 false) = true →
     (env.options css3 Disamb.last).contains "member" = false →
     (runScript env).2 = false ∧
       (runScript env).1.written =
         [(shotPath1, false, []), (shotPath2, false, [(sel1, "dog")]),
          (shotPath3, false, [(sel1, "dog"), (sel2, "b")])]) := by
  have hl : stepGuard env Action.launch = true := rfl
  have hn : stepGuard env Action.newPage = true := rfl
  refine ⟨fun h1 h2 hm => ?_, fun h1 h2 h3 h4 hm => ?_,
    fun h1 h2 h3 h4 h5 h6 hm => ?_⟩
  · have hg : stepGuard env (Action.selectOption sel1 "dog") = false := by
      show (resolveOk env sel1 && (env.options css1 Disamb.first).contains "dog") = false
      rw [hm, Bool.and_false]
    have hr : runScript env =
        (⟨[Action.launch, Action.newPage, Action.goto url0,
           Action.screenshot shotPath1 false],
          [(shotPath1, false, [])], [], true⟩, false) := by
      simp only [runScript, script, runFrom, applyAction, hl, hn, h1, h2, hg, cond_true,
        cond_false, applyEffect, updateSel]
      rfl
    rw [hr]
    exact ⟨rfl, rfl⟩
  · have hg : stepGuard env (Action.selectOption sel2 "b") = false := by
      show (resolveOk env sel2 && (env.options css2 Disamb.unique).contains "b") = false
      rw [hm, Bool.and_false]
    have hr : runScript env =
        (⟨[Action.launch, Action.newPage, Action.goto url0,
           Action.screenshot shotPath1 false, Action.selectOption sel1 "dog",
           Action.screenshot shotPath2 false],
          [(shotPath1, false, []), (shotPath2, false, [(sel1, "dog")])],
          [(sel1, "dog")], true⟩, false) := by
      simp only [runScript, script, runFrom, applyAction, hl, hn, h1, h2, h3, h4, hg,
        cond_true, cond_false, applyEffect, updateSel]
      rfl
    rw [hr]
    exact ⟨rfl, rfl⟩
  · have hg : stepGuard env (Action.selectOption sel3 "member") = false := by
      show (resolveOk env sel3 && (env.options css3 Disamb.last).contains "member") = false
      rw [hm, Bool.and_false]
    have hr : runScript env =
        (⟨[Action.launch, Action.newPage, Action.goto url0,
           Action.screenshot shotPath1 false, Action.selectOption sel1 "dog",
           Action.screenshot shotPath2 false, Action.selectOption sel2 "b",
           Action.screenshot shotPath3 false],
          [(shotPath1, false, []), (shotPath2, false, [(sel1, "dog")]),
           (shotPath3, false, [(sel1, "dog"), (sel2, "b")])],
          [(sel1, "dog"), (sel2, "b")], true⟩, false) := by
      simp only [runScript, script, runFrom, applyAction, hl, hn, h1, h2, h3, h4, h5, h6, hg,
        cond_true, cond_false, applyEffect, updateSel]
      rfl
    rw [hr]
    exact ⟨rfl, rfl⟩

/-- Witness for C2: one concrete environment per selection step whose option
value is missing from that step's control. -/
theorem c2_missing_option_stops_at_step_witness :
    ((runScript envNoDog).2 = false ∧
      (runScript envNoDog).1.written = [(shotPath1, false, [])]) ∧
    ((runScript envNoB).2 = false ∧
      (runScript envNoB).1.written =
        [(shotPath1, false, []), (shotPath2, false, [(sel1, "dog")])]) ∧
    ((runScript envNoMember).2 = false ∧
      (runScript envNoMember).1.written =
        [(shotPath1, false, []), (shotPath2, false, [(sel1, "dog")]),
         (shotPath3, false, [(sel1, "dog"), (sel2, "b")])]) :=
  ⟨(c2_missing_option_stops_at_step envNoDog).1 (by decide) (by decide) (by decide),
   (c2_missing_option_stops_at_step envNoB).2.1 (by decide) (by decide) (by decide)
     (by decide) (by decide),
   (c2_missing_option_stops_at_step envNoMember).2.2 (by decide) (by decide) (by decide)
     (by decide) (by decide) (by decide) (by decide)⟩

/-- Claim C3: if navigation to the target page fails, the run terminates
with a propagated error and writes zero screenshot files. -/
theorem c3_nav_failure_zero_screenshots (env : Env)
    (h : env.gotoOk url0 = false) :
    (runScript env).2 = false ∧ (runScript env).1.written = [] := by
  have hl : stepGuard env Action.launch = true := rfl
  have hn : stepGuard env Action.newPage = true := rfl
  have hg : stepGuard env (Action.goto url0) = false := h
  have hr : runScript env = (⟨[Action.launch, Action.newPage], [], [], true⟩, false) := by
    simp only [runScript, script, runFrom, applyAction, hl, hn, hg, cond_true, cond_false,
      applyEffect, updateSel]
    rfl
  rw [hr]
  exact ⟨rfl, rfl⟩

/-- Witness for C3 at a concrete unreachable-server environment. -/
theorem c3_nav_failure_zero_screenshots_witness :
    (runScript badNavEnv).2 = false ∧ (runScript badNavEnv).1.written = [] :=
  c3_nav_failure_zero_screenshots badNavEnv rfl

/-- Claim C4: no failure is caught or recovered.  Whenever the run fails,
the browser close action never executed (the browser is left open), the
completed actions are a proper prefix of the script — everything after the
failing action is skipped — and the files on disk are exactly the
screenshots of the actions completed before the failure. -/
theorem c4_failure_not_recovered (env : Env)
    (hfail : (runScript env).2 = false) :
    (runScript env).1.browserOpen = true ∧
    Action.closeBrowser ∉ (runScript env).1.trace ∧
    (∃ k, k < script.length ∧ (runScript env).1.trace = script.take k) ∧
    (runScript env).1.written.map (fun w => Action.screenshot w.1 w.2.1)
      = (runScript env).1.trace.filter isShot :=
  runScript_fail env hfail

/-- Witness for C4 at a concrete failing environment. -/
theorem c4_failure_not_recovered_witness :
    (runScript badNavEnv).1.browserOpen = true ∧
    Action.closeBrowser ∉ (runScript badNavEnv).1.trace ∧
    (∃ k, k < script.length ∧ (runScript badNavEnv).1.trace = script.take k) ∧
    (runScript badNavEnv).1.written.map (fun w => Action.screenshot w.1 w.2.1)
      = (runScript badNavEnv).1.trace.filter isShot :=
  c4_failure_not_recovered badNavEnv (by decide)

/-- Counterexample to claim C5 as stated: it is not the case that every
screenshot action of the script captures the full scrollable page.  The
source calls `page.screenshot(path=...)` without `full_page=True`, and
Playwright's `full_page` defaults to `false` (viewport only), so no
screenshot action has the full-page flag set. -/
theorem c5_counterexample : ¬ (∀ x ∈ screenshotSpecs, x.2 = true) := by
  decide

/-- Claim C5 (amended): every one of the four screenshot actions persists a
viewport screenshot — `full_page` omitted and thus `false`, not the entire
scrollable page — to its literal file path. -/
theorem c5_viewport_screenshots :
    screenshotSpecs =
      [(shotPath1, false), (shotPath2, false), (shotPath3, false), (shotPath4, false)] := by
  decide

/-- Claim C6: actions execute strictly in sequence, and each screenshot
records exactly the cumulative selections applied before it: the first
records none, the second records the `"dog"` selection, the third adds the
`"b"` selection with `"dog"` still in effect, and the fourth records all
three selections. -/
theorem c6_screenshots_reflect_cumulative_selections (env : Env) (h : EnvOk env) :
    (runScript env).1.written =
      [(shotPath1, false, []),
       (shotPath2, false, [(sel1, "dog")]),
       (shotPath3, false, [(sel1, "dog"), (sel2, "b")]),
       (shotPath4, false, [(sel1, "dog"), (sel2, "b"), (sel3, "member")])] := by
  simp [runScript_envOk env h, finalWritten, finalSelections]

/-- Witness for C6 at a concrete fully successful environment. -/
theorem c6_screenshots_reflect_cumulative_selections_witness :
    (runScript goodEnv).1.written =
      [(shotPath1, false, []),
       (shotPath2, false, [(sel1, "dog")]),
       (shotPath3, false, [(sel1, "dog"), (sel2, "b")]),
       (shotPath4, false, [(sel1, "dog"), (sel2, "b"), (sel3, "member")])] :=
  c6_screenshots_reflect_cumulative_selections goodEnv (by decide)

/-- Claim C7: with a reachable page, a run succeeds whatever the filesystem
already holds, writes all four fixed paths, and running the script a second
time overwrites the same four files with the same content: the filesystem
effect is idempotent across runs. -/
theorem c7_reruns_idempotent (env : Env) (fs : Fs) (h : EnvOk env) :
    (runScript env).2 = true ∧
    fsAfter env fs shotPath1 = some (false, []) ∧
    fsAfter env fs shotPath2 = some (false, [(sel1, "dog")]) ∧
    fsAfter env fs shotPath3 = some (false, [(sel1, "dog"), (sel2, "b")]) ∧
    fsAfter env fs shotPath4 = some (false, [(sel1, "dog"), (sel2, "b"), (sel3, "member")]) ∧
    fsAfter env (fsAfter env fs) = fsAfter env fs := by
  have hr := runScript_envOk env h
  refine ⟨by rw [hr], ?_, ?_, ?_, ?_, ?_⟩
  · simp only [fsAfter, hr]; rfl
  · simp only [fsAfter, hr]; rfl
  · simp only [fsAfter, hr]; rfl
  · simp only [fsAfter, hr]; rfl
  · funext q
    simp only [fsAfter, hr, finalWritten, finalSelections, commit, writeFile]
    by_cases h4 : q = shotPath4 <;> by_cases h3 : q = shotPath3 <;>
      by_cases h2 : q = shotPath2 <;> by_cases h1 : q = shotPath1 <;>
      simp [h1, h2, h3, h4]

/-- Witness for C7 at a concrete environment and the empty filesystem. -/
theorem c7_reruns_idempotent_witness :
    (runScript goodEnv).2 = true ∧
    fsAfter goodEnv emptyFs shotPath1 = some (false, []) ∧
    fsAfter goodEnv emptyFs shotPath2 = some (false, [(sel1, "dog")]) ∧
    fsAfter goodEnv emptyFs shotPath3 = some (false, [(sel1, "dog"), (sel2, "b")]) ∧
    fsAfter goodEnv emptyFs shotPath4 =
      some (false, [(sel1, "dog"), (sel2, "b"), (sel3, "member")]) ∧
    fsAfter goodEnv (fsAfter goodEnv emptyFs) = fsAfter goodEnv emptyFs :=
  c7_reruns_idempotent goodEnv emptyFs (by decide)

/-- Claim C8: the script takes no input — every varying quantity lives in
the external environment — so any two invocations whose environments let
every action succeed produce identical results: the same action sequence
with the same URLs, selectors, option values and screenshot paths, the same
files, the same final state. -/
theorem c8_deterministic_actions (env1 env2 : Env)
    (h1 : EnvOk env1) (h2 : EnvOk env2) :
    runScript env1 = runScript env2 := by
  rw [runScript_envOk env1 h1, runScript_envOk env2 h2]

/-- Witness for C8 at two concretely different successful environments. -/
theorem c8_deterministic_actions_witness :
    runScript goodEnv = runScript goodEnv2 :=
  c8_deterministic_actions goodEnv goodEnv2 (by decide) (by decide)

/-- Claim C9: unlike the first and third selection steps, the second step
uses the undisambiguated locator `select[aria-label="kind"]`.  Given that
the earlier steps succeed and option `"b"` exists, that selection succeeds
exactly when one control matches; with zero matches or more than one, the
run fails at that step with only the first two screenshots written. -/
theorem c9_kind_locator_strict (env : Env)
    (hnav : stepGuard env (Action.goto url0) = true)
    (hs1 : stepGuard env (Action.screenshot shotPath1 false) = true)
    (hdog : stepGuard env (Action.selectOption sel1 "dog") = true)
    (hs2 : stepGuard env (Action.screenshot shotPath2 false) = true)
    (hb : (env.options css2 Disamb.unique).contains "b" = true) :
    (stepGuard env (Action.selectOption sel2 "b") = true ↔
      env.matchCount css2 = 1) ∧
    (env.matchCount css2 = 0 ∨ 2 ≤ env.matchCount css2 →
      (runScript env).2 = false ∧
      (runScript env).1.written =
        [(shotPath1, false, []), (shotPath2, false, [(sel1, "dog")])]) := by
  have hl : stepGuard env Action.launch = true := rfl
  have hn : stepGuard env Action.newPage = true := rfl
  have hexp : stepGuard env (Action.selectOption sel2 "b")
      = (env.matchCount css2 == 1 && (env.options css2 Disamb.unique).contains "b") := rfl
  constructor
  · rw [hexp, hb, Bool.and_true]
    exact beq_iff_eq
  · intro hne
    have hne1 : env.matchCount css2 ≠ 1 := by omega
    have hk : (env.matchCount css2 == 1) = false := by
      cases hk0 : env.matchCount css2 == 1
      · rfl
      · exact absurd (by simpa using hk0) hne1
    have hg : stepGuard env (Action.selectOption sel2 "b") = false := by
      rw [hexp, hk, Bool.false_and]
    have hr : runScript env =
        (⟨[Action.launch, Action.newPage, Action.goto url0,
           Action.screenshot shotPath1 false, Action.selectOption sel1 "dog",
           Action.screenshot shotPath2 false],
          [(shotPath1, false, []), (shotPath2, false, [(sel1, "dog")])],
          [(sel1, "dog")], true⟩, false) := by
      simp only [runScript, script, runFrom, applyAction, hl, hn, hnav, hs1, hdog, hs2, hg,
        cond_true, cond_false, applyEffect, updateSel]
      rfl
    rw [hr]
    exact ⟨rfl, rfl⟩

/-- Witness for C9 at a concrete environment where three controls match the
kind locator. -/
theorem c9_kind_locator_strict_witness :
    (runScript envMultiKind).2 = false ∧
    (runScript envMultiKind).1.written =
      [(shotPath1, false, []), (shotPath2, false, [(sel1, "dog")])] :=
  (c9_kind_locator_strict envMultiKind (by decide) (by decide) (by decide) (by decide)
    (by decide)).2 (by decide)

/-- Claim C10: the outer playwright driver context is a scoped context
manager, so the driver is released on every execution path — also whenever
`run` raises at some step, in which case the browser launched inside `run`
is nevertheless left open. -/
theorem c10_driver_released_on_all_paths (env : Env) :
    (mainRun env).driverReleased = true ∧
    ((mainRun env).ok = false → (mainRun env).run.browserOpen = true) :=
  ⟨rfl, fun h => (runScript_fail env h).1⟩

/-- Witness for C10 at a concrete failing environment: the run fails, the
browser stays open, yet the driver is released. -/
theorem c10_driver_released_on_all_paths_witness :
    (mainRun badNavEnv).driverReleased = true ∧
    (mainRun badNavEnv).run.browserOpen = true :=
  ⟨(c10_driver_released_on_all_paths badNavEnv).1,
   (c10_driver_released_on_all_paths badNavEnv).2 (by decide)⟩

end VDU
